import Mathlib

/-!
Verification of the `lucetc` compilation driver (`src/lucetc/src/lib.rs`).

The driver `Lucetc` holds a decoded Wasm module, a bindings registry, an
optimization level and heap settings, and exposes consuming and mutating
setter pairs plus terminal output operations.  The module loader
(`load.rs`), the bindings registry (`bindings.rs`), the builtin patcher
(`patch.rs`) and the code-generation backend (`compiler.rs`) are separate
modules of the repository; where their behaviour decides a property they
are modelled from the specification, as noted on each definition.
External effects (reading the module, patching, running the linker) enter
the embedding as explicit oracle arguments describing their outcome.
-/

/-- Modelled from the spec: `parity_wasm::elements::Module` (decoded in
`load.rs`, not under `src/`) is opaque to the driver except for `clone`
and `serialize`; it is represented by its underlying byte sequence. -/
abbrev WasmModule := List Nat

/-- An import key: `(namespace, field)`. -/
abbrev BindKey := String × String

/-- Modelled from the spec: the `Bindings` registry of `bindings.rs` (not
under `src/`) is a mapping from `(namespace, field)` pairs to host-symbol
names, represented as an association list with unique keys. -/
abbrev Bindings := List (BindKey × String)

/-- Errors surfaced by the driver's configuration operations. -/
inductive DriverError
  | bindingsConflict (key : BindKey) (oldSym newSym : String)
  | patch (msg : String)
deriving DecidableEq, Repr

/-- `Bindings::empty()`: fresh registry with no entries. -/
def Bindings.empty : Bindings := []

/-- `Bindings::env(map)`: a registry whose only namespace is `"env"`,
populated from the given field-to-symbol map. -/
def Bindings.env (m : List (String × String)) : Bindings :=
  m.map (fun p => (("env", p.1), p.2))

/-- Registry lookup: the symbol bound to a key, if any. -/
def lookupB : Bindings → BindKey → Option String
  | [], _ => none
  | (k, v) :: rest, key => if k = key then some v else lookupB rest key

/-- First entry of `other` whose key is already bound in `self` to a
different symbol, together with both symbols. -/
def findConflict (self : Bindings) : Bindings → Option (BindKey × String × String)
  | [] => none
  | (k, v) :: rest =>
    match lookupB self k with
    | some v0 => if v0 = v then findConflict self rest else some (k, v0, v)
    | none => findConflict self rest

/-- Insert every entry of the second registry whose key is not yet bound;
identical re-declarations are dropped. -/
def insertAll : Bindings → Bindings → Bindings
  | self, [] => self
  | self, (k, v) :: rest =>
    insertAll (if (lookupB self k).isSome then self else self ++ [(k, v)]) rest

/-- Modelled from the spec: `Bindings::extend` of `bindings.rs` (not under
`src/`).  Merges `other` into `self`: absent keys are inserted, identical
re-declarations are no-ops, and a key already bound to a different symbol
fails with a conflict error naming the key and both symbols.  The
operation is atomic in observable state: the returned registry is the
caller's registry after the call (unchanged on failure). -/
def Bindings.extend (self other : Bindings) : Bindings × Option DriverError :=
  match findConflict self other with
  | some (k, v0, v) => (self, some (DriverError.bindingsConflict k v0 v))
  | none => (insertAll self other, none)

/-- Modelled from the spec: the optimization levels of `compiler.rs` (not
under `src/`): none, speed, and speed-and-size. -/
inductive OptLevel
  | level_none
  | speed
  | speedAndSize
deriving DecidableEq, Repr

/-- Modelled from the spec: `OptLevel::default()`; the spec fixes only
that a default exists, not which variant it is. -/
def OptLevel.default : OptLevel := OptLevel.level_none

/-- `HeapSettings` of `heap.rs`: linear-memory sizing in bytes.  The
fields are u64 in the source; the driver only stores values into them,
so they are represented as naturals. -/
structure HeapSettings where
  min_reserved_size : Nat
  max_reserved_size : Nat
  guard_size : Nat
deriving DecidableEq, Repr

/-- Modelled from the spec: `HeapSettings::default()` of `heap.rs` (not
under `src/`); the spec fixes only that defaults exist, not their
numeric values, so arbitrary fixed constants stand for them. -/
def HeapSettings.default : HeapSettings :=
  { min_reserved_size := 0, max_reserved_size := 0, guard_size := 0 }

/-- The driver: `pub struct Lucetc` of `lib.rs`. -/
structure Lucetc where
  module : WasmModule
  bindings : Bindings
  opt_level : OptLevel
  heap : HeapSettings
deriving DecidableEq, Repr

/-- `Lucetc::new(input)`.  `read_module(input)` lives in `load.rs`; its
outcome for the given path enters as the oracle argument.  On success the
driver starts with the loaded module, an empty registry and defaults. -/
def Lucetc.new (read_module_result : Except String WasmModule) : Except String Lucetc := do
  let module ← read_module_result
  return { module := module
           bindings := Bindings.empty
           opt_level := OptLevel.default
           heap := HeapSettings.default }

/-- Mutating setter `Lucetc::with_bindings`: extends the registry; the
returned driver is the caller's state after the call, with the error when
the merge conflicts. -/
def Lucetc.with_bindings (s : Lucetc) (b : Bindings) : Lucetc × Option DriverError :=
  let r := Bindings.extend s.bindings b
  ({ s with bindings := r.1 }, r.2)

/-- Consuming setter `Lucetc::bindings` (named `bindingsOwn` here because
the structure projection takes the source name): calls `with_bindings`
and returns the moved driver on success, the error otherwise. -/
def Lucetc.bindingsOwn (s : Lucetc) (b : Bindings) : Except DriverError Lucetc :=
  let r := Lucetc.with_bindings s b
  match r.2 with
  | some e => Except.error e
  | none => Except.ok r.1

/-- Mutating setter `Lucetc::with_opt_level`. -/
def Lucetc.with_opt_level (s : Lucetc) (o : OptLevel) : Lucetc :=
  { s with opt_level := o }

/-- Consuming setter `Lucetc::opt_level` (named `optLevelOwn` here
because the structure projection takes the source name). -/
def Lucetc.optLevelOwn (s : Lucetc) (o : OptLevel) : Lucetc :=
  Lucetc.with_opt_level s o

/-- Mutating setter `Lucetc::with_builtins`.  `patch_module(self.module.clone(),
builtins_path)` lives in `patch.rs`; its outcome (the patched module and
the induced env bindings map, or a patch error) enters as the oracle
argument.  As in the source, the patched module is installed before the
registry merge is attempted. -/
def Lucetc.with_builtins (s : Lucetc)
    (patch_result : Except String (WasmModule × List (String × String))) :
    Lucetc × Option DriverError :=
  match patch_result with
  | Except.error e => (s, some (DriverError.patch e))
  | Except.ok (newmodule, builtins_map) =>
    let s1 := { s with module := newmodule }
    let r := Bindings.extend s1.bindings (Bindings.env builtins_map)
    ({ s1 with bindings := r.1 }, r.2)

/-- Consuming setter `Lucetc::builtins`. -/
def Lucetc.builtins (s : Lucetc)
    (patch_result : Except String (WasmModule × List (String × String))) :
    Except DriverError Lucetc :=
  let r := Lucetc.with_builtins s patch_result
  match r.2 with
  | some e => Except.error e
  | none => Except.ok r.1

/-- Mutating setter `Lucetc::with_min_reserved_size`. -/
def Lucetc.with_min_reserved_size (s : Lucetc) (v : Nat) : Lucetc :=
  { s with heap := { s.heap with min_reserved_size := v } }

/-- Consuming setter `Lucetc::min_reserved_size`. -/
def Lucetc.min_reserved_size (s : Lucetc) (v : Nat) : Lucetc :=
  Lucetc.with_min_reserved_size s v

/-- Mutating setter `Lucetc::with_max_reserved_size`. -/
def Lucetc.with_max_reserved_size (s : Lucetc) (v : Nat) : Lucetc :=
  { s with heap := { s.heap with max_reserved_size := v } }

/-- Consuming setter `Lucetc::max_reserved_size`. -/
def Lucetc.max_reserved_size (s : Lucetc) (v : Nat) : Lucetc :=
  Lucetc.with_max_reserved_size s v

/-- Mutating setter `Lucetc::with_guard_size`. -/
def Lucetc.with_guard_size (s : Lucetc) (v : Nat) : Lucetc :=
  { s with heap := { s.heap with guard_size := v } }

/-- Consuming setter `Lucetc::guard_size`. -/
def Lucetc.guard_size (s : Lucetc) (v : Nat) : Lucetc :=
  Lucetc.with_guard_size s v

/-- The non-builtins configuration operations of the driver, one
constructor per field. -/
inductive ConfigOp
  | setBindings (b : Bindings)
  | setOptLevel (o : OptLevel)
  | setMinReservedSize (v : Nat)
  | setMaxReservedSize (v : Nat)
  | setGuardSize (v : Nat)
deriving DecidableEq, Repr

/-- Which field a configuration operation targets. -/
def ConfigOp.kind : ConfigOp → Nat
  | ConfigOp.setBindings _ => 0
  | ConfigOp.setOptLevel _ => 1
  | ConfigOp.setMinReservedSize _ => 2
  | ConfigOp.setMaxReservedSize _ => 3
  | ConfigOp.setGuardSize _ => 4

/-- Apply a configuration operation through its mutating setter:
state after the call, plus the error if the operation failed. -/
def applyConfig (s : Lucetc) : ConfigOp → Lucetc × Option DriverError
  | ConfigOp.setBindings b => Lucetc.with_bindings s b
  | ConfigOp.setOptLevel o => (Lucetc.with_opt_level s o, none)
  | ConfigOp.setMinReservedSize v => (Lucetc.with_min_reserved_size s v, none)
  | ConfigOp.setMaxReservedSize v => (Lucetc.with_max_reserved_size s v, none)
  | ConfigOp.setGuardSize v => (Lucetc.with_guard_size s v, none)

/-- Outcome of the linker child process: exit code and captured stderr
(`run_ld.stderr`, lossily decoded in the source). -/
structure ProcessOutput where
  code : Nat
  stderr : String
deriving DecidableEq, Repr

/-- The argv built by `link_so`: program `ld`, then one `arg` call each
for the object path, `-shared`, `-o` and the output path. -/
def cmd_ld_args (objpath sopath : String) : List String :=
  ((((["ld"] ++ [objpath]) ++ ["-shared"]) ++ ["-o"]) ++ [sopath])

/-- `link_so(objpath, sopath)` of `lib.rs`, given the linker's outcome as
an oracle: the argv it hands to the system, and its result.
`status.success()` holds exactly for exit code 0; otherwise the error
message is built from the object path and the captured stderr. -/
def link_so (objpath sopath : String) (run_ld : ProcessOutput) :
    List String × Except String Unit :=
  (cmd_ld_args objpath sopath,
   if run_ld.code = 0 then Except.ok ()
   else Except.error ("ld of " ++ objpath ++ " failed: " ++ run_ld.stderr))

/-- Whether the character list `sub` is a prefix of `l`. -/
def startsWithL : List Char → List Char → Bool
  | _, [] => true
  | [], _ :: _ => false
  | c :: cs, d :: ds => c = d && startsWithL cs ds

/-- Whether the character list `sub` occurs contiguously inside `l`. -/
def containsL (sub : List Char) : List Char → Bool
  | [] => startsWithL [] sub
  | c :: cs => startsWithL (c :: cs) sub || containsL sub cs

/-- Whether `sub` occurs verbatim as a substring of `s`. -/
def strContains (s sub : String) : Bool :=
  containsL sub.data s.data

/-- Filesystem events of a `shared_object_file` call that concern its
temporary directory. -/
inductive FsEvent
  | acquireTempDir
  | releaseTempDir
deriving DecidableEq, Repr

/-- `Lucetc::shared_object_file`, as the sequence of temporary-directory
events it performs alongside its result.  The oracles give the outcomes
of `tempfile`'s directory creation, of `object_file` into the directory,
and of `link_so`.  The `dir` value is dropped when the function returns
on every path — the early `?` returns included — and `TempDir`'s drop
removes the directory; the embedding records that drop explicitly. -/
def shared_object_file (tempdir_result : Except String Unit)
    (object_file_result : Except String Unit) (link_result : Except String Unit) :
    Except String Unit × List FsEvent :=
  match tempdir_result with
  | Except.error e => (Except.error e, [])
  | Except.ok () =>
    match object_file_result with
    | Except.error e => (Except.error e, [FsEvent.acquireTempDir, FsEvent.releaseTempDir])
    | Except.ok () =>
      match link_result with
      | Except.error e => (Except.error e, [FsEvent.acquireTempDir, FsEvent.releaseTempDir])
      | Except.ok () => (Except.ok (), [FsEvent.acquireTempDir, FsEvent.releaseTempDir])

/-- Whether the temporary directory still exists after a trace of events. -/
def tempDirLiveAfter (tr : List FsEvent) : Bool :=
  tr.foldl (fun _ e => match e with
    | FsEvent.acquireTempDir => true
    | FsEvent.releaseTempDir => false) false

/-- A concrete driver state used to instantiate the universally
quantified theorems below. -/
def sampleDriver : Lucetc :=
  { module := [0, 97, 115, 109]
    bindings := Bindings.empty
    opt_level := OptLevel.default
    heap := HeapSettings.default }

/-- A concrete driver whose registry already binds `env/print`. -/
def cexDriver : Lucetc :=
  { module := [0]
    bindings := [(("env", "print"), "host_print")]
    opt_level := OptLevel.default
    heap := HeapSettings.default }

/-- A patch outcome whose induced env bindings conflict with
`cexDriver`'s registry while replacing the module. -/
def cexPatchResult : Except String (WasmModule × List (String × String)) :=
  Except.ok ([1], [("print", "other_print")])

/-! ## Registry lemmas -/

theorem lookupB_append_of_isSome (s t : Bindings) (k : BindKey)
    (h : (lookupB s k).isSome) : lookupB (s ++ t) k = lookupB s k := by
  induction s with
  | nil => simp [lookupB] at h
  | cons e rest ih =>
    obtain ⟨k0, v0⟩ := e
    by_cases hk : k0 = k
    · simp [lookupB, hk]
    · simp only [lookupB, hk, if_false] at h
      simp only [List.cons_append, lookupB, hk, if_false]
      exact ih h

theorem lookupB_append_of_none (s t : Bindings) (k : BindKey)
    (h : lookupB s k = none) : lookupB (s ++ t) k = lookupB t k := by
  induction s with
  | nil => simp
  | cons e rest ih =>
    obtain ⟨k0, v0⟩ := e
    by_cases hk : k0 = k
    · simp [lookupB, hk] at h
    · simp only [lookupB, hk, if_false] at h
      simp only [List.cons_append, lookupB, hk, if_false]
      exact ih h

theorem insertAll_lookup_isSome (l : Bindings) : ∀ (s : Bindings) (k : BindKey),
    (lookupB s k).isSome → (lookupB (insertAll s l) k).isSome := by
  induction l with
  | nil => intro s k h; simpa [insertAll] using h
  | cons e rest ih =>
    intro s k h
    obtain ⟨k0, v0⟩ := e
    simp only [insertAll]
    apply ih
    cases hs : (lookupB s k0).isSome with
    | true => simpa [hs] using h
    | false =>
      simp only [hs, if_false, Bool.false_eq_true]
      rw [lookupB_append_of_isSome s _ k h]
      exact h

theorem insertAll_key_present (l : Bindings) : ∀ (s : Bindings),
    ∀ e ∈ l, (lookupB (insertAll s l) e.1).isSome := by
  induction l with
  | nil => intro s e he; cases he
  | cons e0 rest ih =>
    intro s e he
    obtain ⟨k0, v0⟩ := e0
    rw [List.mem_cons] at he
    rcases he with he | he
    · subst he
      simp only [insertAll]
      apply insertAll_lookup_isSome
      cases hs : (lookupB s k0).isSome with
      | true => simp [hs]
      | false =>
        simp only [hs, if_false, Bool.false_eq_true]
        have hn : lookupB s k0 = none := by
          cases h0 : lookupB s k0 with
          | none => rfl
          | some v => rw [h0] at hs; simp at hs
        rw [lookupB_append_of_none s _ k0 hn]
        simp [lookupB]
    · simp only [insertAll]
      exact ih _ e he

theorem insertAll_of_all_present (l : Bindings) : ∀ (s : Bindings),
    (∀ e ∈ l, (lookupB s e.1).isSome) → insertAll s l = s := by
  induction l with
  | nil => intro s _; rfl
  | cons e0 rest ih =>
    intro s h
    obtain ⟨k0, v0⟩ := e0
    have h0 : (lookupB s k0).isSome := h (k0, v0) (List.mem_cons_self _ _)
    simp only [insertAll, h0, if_true]
    exact ih s (fun e he => h e (List.mem_cons_of_mem _ he))

theorem extend_fail_frame (self b : Bindings)
    (h : (Bindings.extend self b).2 ≠ none) : (Bindings.extend self b).1 = self := by
  cases hc : findConflict self b with
  | none => exact absurd (by simp [Bindings.extend, hc]) h
  | some c =>
    obtain ⟨k, v0, v⟩ := c
    simp [Bindings.extend, hc]

/-! ## String containment lemmas -/

theorem startsWithL_append (sub t : List Char) : startsWithL (sub ++ t) sub = true := by
  induction sub with
  | nil => simp [startsWithL]
  | cons c cs ih => simp [startsWithL, ih]

theorem containsL_of_startsWith (sub l : List Char) (h : startsWithL l sub = true) :
    containsL sub l = true := by
  cases l with
  | nil => simpa [containsL] using h
  | cons c cs => simp [containsL, h]

theorem containsL_append_left (sub p l : List Char) (h : containsL sub l = true) :
    containsL sub (p ++ l) = true := by
  induction p with
  | nil => simpa using h
  | cons c cs ih =>
    simp only [List.cons_append, containsL, Bool.or_eq_true]
    exact Or.inr ih

theorem strContains_append_right (p s : String) : strContains (p ++ s) s = true := by
  unfold strContains
  rw [String.data_append]
  apply containsL_append_left
  apply containsL_of_startsWith
  simpa using startsWithL_append s.data []

theorem strContains_middle (p mid t : String) : strContains (p ++ mid ++ t) mid = true := by
  unfold strContains
  rw [String.data_append, String.data_append, List.append_assoc]
  apply containsL_append_left
  apply containsL_of_startsWith
  exact startsWithL_append mid.data t.data

/-! ## Claim theorems -/

/-- C3: if `extend(b)` (the merge `with_bindings` performs) fails with a
conflict error, the registry after the call is identical to the registry
before the call. -/
theorem extend_conflict_atomic (self b : Bindings) (e : DriverError)
    (h : (Bindings.extend self b).2 = some e) : (Bindings.extend self b).1 = self :=
  extend_fail_frame self b (by simp [h])

/-- Witness for C3 at the spec's S2 scenario: a conflicting re-binding of
`env/print` leaves the registry unchanged. -/
theorem extend_conflict_atomic_witness :
    (Bindings.extend [(("env", "print"), "host_print")]
        [(("env", "print"), "other_print")]).1
      = [(("env", "print"), "host_print")] :=
  extend_conflict_atomic _ _
    (DriverError.bindingsConflict ("env", "print") "host_print" "other_print") rfl

/-- C7: for a `b` that merges without conflict, extending twice in
succession yields the same registry as extending once. -/
theorem extend_idem (self b : Bindings)
    (h : (Bindings.extend self b).2 = none) :
    (Bindings.extend (Bindings.extend self b).1 b).1 = (Bindings.extend self b).1 := by
  cases hc : findConflict self b with
  | some c =>
    obtain ⟨k, v0, v⟩ := c
    simp [Bindings.extend, hc] at h
  | none =>
    have h1 : (Bindings.extend self b).1 = insertAll self b := by
      simp [Bindings.extend, hc]
    rw [h1]
    cases hc2 : findConflict (insertAll self b) b with
    | some c2 =>
      obtain ⟨k, v0, v⟩ := c2
      simp [Bindings.extend, hc2]
    | none =>
      simp only [Bindings.extend, hc2]
      exact insertAll_of_all_present b (insertAll self b)
        (fun e he => insertAll_key_present b self e he)

/-- Witness for C7: re-extending an empty registry with the same
`env/print` binding changes nothing. -/
theorem extend_idem_witness :
    (Bindings.extend (Bindings.extend Bindings.empty
        [(("env", "print"), "host_print")]).1 [(("env", "print"), "host_print")]).1
      = (Bindings.extend Bindings.empty [(("env", "print"), "host_print")]).1 :=
  extend_idem Bindings.empty _ rfl

/-- C2: for each configuration field, the consuming setter variant
returns exactly the driver state its mutating `with_X` variant produces
on the same state and argument, and the two succeed or fail identically,
with the same error. -/
theorem consuming_mutating_agree (s : Lucetc) (b : Bindings)
    (pr : Except String (WasmModule × List (String × String)))
    (o : OptLevel) (v1 v2 v3 : Nat) :
    (∀ s', Lucetc.bindingsOwn s b = Except.ok s' ↔ Lucetc.with_bindings s b = (s', none)) ∧
    (∀ e, Lucetc.bindingsOwn s b = Except.error e ↔ (Lucetc.with_bindings s b).2 = some e) ∧
    (∀ s', Lucetc.builtins s pr = Except.ok s' ↔ Lucetc.with_builtins s pr = (s', none)) ∧
    (∀ e, Lucetc.builtins s pr = Except.error e ↔ (Lucetc.with_builtins s pr).2 = some e) ∧
    Lucetc.optLevelOwn s o = Lucetc.with_opt_level s o ∧
    Lucetc.min_reserved_size s v1 = Lucetc.with_min_reserved_size s v1 ∧
    Lucetc.max_reserved_size s v2 = Lucetc.with_max_reserved_size s v2 ∧
    Lucetc.guard_size s v3 = Lucetc.with_guard_size s v3 := by
  refine ⟨?_, ?_, ?_, ?_, rfl, rfl, rfl, rfl⟩
  · intro s'
    rcases hwb : Lucetc.with_bindings s b with ⟨s1, e1⟩
    cases e1 with
    | none => simp [Lucetc.bindingsOwn, hwb, eq_comm]
    | some e => simp [Lucetc.bindingsOwn, hwb]
  · intro e
    rcases hwb : Lucetc.with_bindings s b with ⟨s1, e1⟩
    cases e1 with
    | none => simp [Lucetc.bindingsOwn, hwb]
    | some e0 => simp [Lucetc.bindingsOwn, hwb, eq_comm]
  · intro s'
    rcases hwb : Lucetc.with_builtins s pr with ⟨s1, e1⟩
    cases e1 with
    | none => simp [Lucetc.builtins, hwb, eq_comm]
    | some e => simp [Lucetc.builtins, hwb]
  · intro e
    rcases hwb : Lucetc.with_builtins s pr with ⟨s1, e1⟩
    cases e1 with
    | none => simp [Lucetc.builtins, hwb]
    | some e0 => simp [Lucetc.builtins, hwb, eq_comm]

/-- C6: two configuration operations on distinct non-builtins fields
commute; when both orders succeed, the final driver state is independent
of the order of application. -/
theorem config_ops_commute (s : Lucetc) (o1 o2 : ConfigOp)
    (hk : ConfigOp.kind o1 ≠ ConfigOp.kind o2)
    (h1 : (applyConfig s o1).2 = none)
    (h2 : (applyConfig (applyConfig s o1).1 o2).2 = none)
    (h3 : (applyConfig s o2).2 = none)
    (h4 : (applyConfig (applyConfig s o2).1 o1).2 = none) :
    (applyConfig (applyConfig s o1).1 o2).1 = (applyConfig (applyConfig s o2).1 o1).1 := by
  cases o1 <;> cases o2 <;> first
    | exact absurd rfl hk
    | rfl

/-- Witness for C6: setting the optimization level and the guard size on
a concrete driver commutes. -/
theorem config_ops_commute_witness :
    (applyConfig (applyConfig sampleDriver (ConfigOp.setOptLevel OptLevel.speed)).1
        (ConfigOp.setGuardSize 7)).1
      = (applyConfig (applyConfig sampleDriver (ConfigOp.setGuardSize 7)).1
          (ConfigOp.setOptLevel OptLevel.speed)).1 :=
  config_ops_commute sampleDriver (ConfigOp.setOptLevel OptLevel.speed)
    (ConfigOp.setGuardSize 7) (by decide) rfl rfl rfl rfl

/-- C8: `Lucetc::new` either propagates the module-load error, or returns
a driver holding the loaded module, the empty registry, and the default
optimization level and heap settings. -/
theorem new_initial_state (r : Except String WasmModule) :
    Lucetc.new r = Except.map (fun m =>
      { module := m, bindings := Bindings.empty,
        opt_level := OptLevel.default, heap := HeapSettings.default }) r := by
  cases r <;> rfl

/-- C9: each heap setter overwrites only its own heap field and the
optimization-level setter only the optimization level; module, registry
and every other field are untouched. -/
theorem setters_frame (s : Lucetc) (v1 v2 v3 : Nat) (o : OptLevel) :
    ((Lucetc.with_min_reserved_size s v1).module = s.module ∧
     (Lucetc.with_min_reserved_size s v1).bindings = s.bindings ∧
     (Lucetc.with_min_reserved_size s v1).opt_level = s.opt_level ∧
     (Lucetc.with_min_reserved_size s v1).heap.max_reserved_size = s.heap.max_reserved_size ∧
     (Lucetc.with_min_reserved_size s v1).heap.guard_size = s.heap.guard_size ∧
     (Lucetc.with_min_reserved_size s v1).heap.min_reserved_size = v1) ∧
    ((Lucetc.with_max_reserved_size s v2).module = s.module ∧
     (Lucetc.with_max_reserved_size s v2).bindings = s.bindings ∧
     (Lucetc.with_max_reserved_size s v2).opt_level = s.opt_level ∧
     (Lucetc.with_max_reserved_size s v2).heap.min_reserved_size = s.heap.min_reserved_size ∧
     (Lucetc.with_max_reserved_size s v2).heap.guard_size = s.heap.guard_size ∧
     (Lucetc.with_max_reserved_size s v2).heap.max_reserved_size = v2) ∧
    ((Lucetc.with_guard_size s v3).module = s.module ∧
     (Lucetc.with_guard_size s v3).bindings = s.bindings ∧
     (Lucetc.with_guard_size s v3).opt_level = s.opt_level ∧
     (Lucetc.with_guard_size s v3).heap.min_reserved_size = s.heap.min_reserved_size ∧
     (Lucetc.with_guard_size s v3).heap.max_reserved_size = s.heap.max_reserved_size ∧
     (Lucetc.with_guard_size s v3).heap.guard_size = v3) ∧
    ((Lucetc.with_opt_level s o).module = s.module ∧
     (Lucetc.with_opt_level s o).bindings = s.bindings ∧
     (Lucetc.with_opt_level s o).heap = s.heap ∧
     (Lucetc.with_opt_level s o).opt_level = o) :=
  ⟨⟨rfl, rfl, rfl, rfl, rfl, rfl⟩, ⟨rfl, rfl, rfl, rfl, rfl, rfl⟩,
   ⟨rfl, rfl, rfl, rfl, rfl, rfl⟩, ⟨rfl, rfl, rfl, rfl⟩⟩

/-- C10: the heap setters are total and unvalidated; a configuration with
the minimum reserved size above the maximum is stored verbatim, so an
invalid heap configuration is representable in the driver. -/
theorem heap_setters_unvalidated (s : Lucetc) (m M g : Nat) (h : M < m) :
    (Lucetc.guard_size (Lucetc.max_reserved_size
        (Lucetc.min_reserved_size s m) M) g).heap
      = { min_reserved_size := m, max_reserved_size := M, guard_size := g } ∧
    ¬ ((Lucetc.guard_size (Lucetc.max_reserved_size
          (Lucetc.min_reserved_size s m) M) g).heap.min_reserved_size
        ≤ (Lucetc.guard_size (Lucetc.max_reserved_size
            (Lucetc.min_reserved_size s m) M) g).heap.max_reserved_size) :=
  ⟨rfl, fun hle => absurd hle (Nat.not_le.mpr h)⟩

/-- Witness for C10 at the spec's S4 scenario: min 65536 over max 32768
is accepted and stored. -/
theorem heap_setters_unvalidated_witness :
    (Lucetc.guard_size (Lucetc.max_reserved_size
        (Lucetc.min_reserved_size sampleDriver 65536) 32768) 4096).heap
      = { min_reserved_size := 65536, max_reserved_size := 32768, guard_size := 4096 } :=
  (heap_setters_unvalidated sampleDriver 65536 32768 4096 (by decide)).1

/-- C1 (amended): if patching fails, `with_builtins` leaves the driver
unchanged; if the bindings merge fails, the registry, the optimization
level and the heap are unchanged, but the module has already been
replaced by the patched module, so the mutating variant exposes a
patched module whose induced bindings were not merged. -/
theorem with_builtins_error_frames (s : Lucetc)
    (pr : Except String (WasmModule × List (String × String))) :
    (∀ e, pr = Except.error e →
      Lucetc.with_builtins s pr = (s, some (DriverError.patch e))) ∧
    (∀ m bm, pr = Except.ok (m, bm) → (Lucetc.with_builtins s pr).2 ≠ none →
      (Lucetc.with_builtins s pr).1.module = m ∧
      (Lucetc.with_builtins s pr).1.bindings = s.bindings ∧
      (Lucetc.with_builtins s pr).1.opt_level = s.opt_level ∧
      (Lucetc.with_builtins s pr).1.heap = s.heap) := by
  constructor
  · intro e he; subst he; rfl
  · intro m bm hpr herr
    subst hpr
    have hb : (Bindings.extend s.bindings (Bindings.env bm)).1 = s.bindings :=
      extend_fail_frame s.bindings (Bindings.env bm) herr
    exact ⟨rfl, hb, rfl, rfl⟩

/-- Counterexample to C1 as stated: on `cexDriver` with `cexPatchResult`
the builtins operation fails at the bindings merge, yet the observable
state has changed — the module was patched without its induced bindings
having been merged. -/
theorem with_builtins_not_atomic :
    (Lucetc.with_builtins cexDriver cexPatchResult).2 ≠ none ∧
    (Lucetc.with_builtins cexDriver cexPatchResult).1 ≠ cexDriver ∧
    (Lucetc.with_builtins cexDriver cexPatchResult).1.module ≠ cexDriver.module := by
  decide

/-- C4 (amended): `link_so` hands the system linker the argv
`ld <object-path> -shared -o <output-path>`, succeeds exactly when the
linker exits with status 0, and on a non-zero exit returns an error
whose message contains the captured stderr verbatim and the object
path; the exit status is not part of the message. -/
theorem link_so_spec (objpath sopath : String) (run : ProcessOutput) :
    (link_so objpath sopath run).1 = ["ld", objpath, "-shared", "-o", sopath] ∧
    ((link_so objpath sopath run).2 = Except.ok () ↔ run.code = 0) ∧
    (∀ msg, (link_so objpath sopath run).2 = Except.error msg →
      run.code ≠ 0 ∧ strContains msg run.stderr = true ∧
      strContains msg objpath = true) := by
  refine ⟨rfl, ?_, ?_⟩
  · by_cases h : run.code = 0 <;> simp [link_so, h]
  · intro msg hmsg
    by_cases h : run.code = 0
    · simp [link_so, h] at hmsg
    · simp only [link_so, h, if_false] at hmsg
      rw [Except.error.injEq] at hmsg
      subst hmsg
      refine ⟨h, strContains_append_right _ _, ?_⟩
      rw [String.append_assoc ("ld of " ++ objpath) " failed: " run.stderr]
      exact strContains_middle "ld of " objpath (" failed: " ++ run.stderr)

/-- Counterexample to C4 as stated: the linker fails with status 1 and
stderr `boom`; the reported message carries the stderr but no trace of
the exit status. -/
theorem link_so_status_not_in_message :
    (link_so "obj.o" "out.so" { code := 1, stderr := "boom" }).2
      = Except.error "ld of obj.o failed: boom" ∧
    strContains "ld of obj.o failed: boom" "1" = false := by
  constructor
  · rfl
  · decide

/-- C5: on every exit path of `shared_object_file` — success, object-file
failure and linker failure alike — the temporary directory it acquired
has been released by the time the call returns. -/
theorem shared_object_file_tempdir_released (t o l : Except String Unit) :
    tempDirLiveAfter (shared_object_file t o l).2 = false ∧
    FsEvent.acquireTempDir ∈ (shared_object_file (Except.ok ()) o l).2 := by
  constructor
  · rcases t with e | u
    · rfl
    · cases u
      rcases o with e | u2
      · rfl
      · cases u2
        rcases l with e | u3
        · rfl
        · cases u3; rfl
  · rcases o with e | u2
    · exact List.mem_cons_self _ _
    · cases u2
      rcases l with e | u3
      · exact List.mem_cons_self _ _
      · cases u3; exact List.mem_cons_self _ _
